import Mathlib

/-!
Shallow embedding of the Finance-Dash ingestion core (parser/csv_parser.py,
parser/pdf_parser.py, parser/bank_parser.py, utils/categorizer.py,
database/operations.py, database/models.py, main.py) together with theorems
settling the claims about it.

Modelling conventions:
* Python floats are idealised as rationals (ℚ); the float special values
  (nan/inf) and exotic accepted spellings (underscores, exponents) are outside
  the model, which covers the sign/digits/point numerals that occur in bank
  statements.
* Pandas cells are `Option String` (`none` is NaN); a DataFrame row is an
  association list from column name to cell.
* SHA-256 digests are abstracted as an arbitrary function argument
  `sha : String → String`: every theorem that involves hashing is proved for
  all such functions, so it holds for the real digest in particular.
* Text extracted from PDF pages and scanned by `re.findall` is modelled at the
  match boundary: the extractors receive the list of matched
  (date, description, amount) groups, and a shape checker reproduces which
  triples the bank pattern can produce.
-/

namespace FinanceDash

/-- Python `str.strip()` (ASCII whitespace) on a character list. -/
def stripChars (l : List Char) : List Char :=
  ((l.dropWhile Char.isWhitespace).reverse.dropWhile Char.isWhitespace).reverse

/-- Python `str.strip()` on strings. -/
def pyStrip (s : String) : String :=
  String.mk (stripChars s.data)

/-- Lower-case a string character by character, as Python `str.lower()` does
for ASCII input. -/
def toLowerStr (s : String) : String :=
  String.mk (s.data.map Char.toLower)

/-- Substring occurrence on character lists: Python `needle in hay`. -/
def containsSubChars (hay needle : List Char) : Bool :=
  match hay with
  | [] => needle.isEmpty
  | _ :: rest => needle.isPrefixOf hay || containsSubChars rest needle

/-- Python `needle in hay` for strings. -/
def containsSub (hay needle : String) : Bool :=
  containsSubChars hay.data needle.data

/-- Number of occurrences of a character in a string; `len(s.split(c)) == 2`
is the same as `countChar s c = 1`. -/
def countChar (s : String) (c : Char) : Nat :=
  s.data.countP (fun x => x = c)

/-- Numeric value of a list of decimal digit characters. -/
def digitsVal (l : List Char) : Nat :=
  l.foldl (fun a c => a * 10 + (c.toNat - 48)) 0

/-- Python `float()` on a string made of an optional sign, digits, and at most
one decimal point (the numerals that arise in statement cells); all other
strings raise ValueError, modelled as `none`. -/
def pyFloatCore (l : List Char) : Option ℚ :=
  let ip := l.takeWhile Char.isDigit
  let rest := l.drop ip.length
  match rest with
  | [] => if ip.isEmpty then none else some (digitsVal ip : ℚ)
  | '.' :: frac =>
    if frac.all Char.isDigit && (!ip.isEmpty || !frac.isEmpty) then
      some ((digitsVal ip : ℚ) + mkRat (digitsVal frac) (10 ^ frac.length))
    else none
  | _ => none

/-- Python `abs` on rationals, in a form the kernel evaluates. -/
def qAbs (q : ℚ) : ℚ := if q < 0 then -q else q

/-- Integer part of a nonnegative rational (`math.floor` for the nonnegative
arguments that arise here), in a form the kernel evaluates. -/
def qIntPart (q : ℚ) : Nat := q.num.toNat / q.den

/-- Python `float()` including sign handling and whitespace stripping. -/
def pyFloat (s : String) : Option ℚ :=
  match stripChars s.data with
  | '-' :: rest => (pyFloatCore rest).map Neg.neg
  | '+' :: rest => pyFloatCore rest
  | l => pyFloatCore l

/-! ## datetime.strptime

Python's `_strptime` compiles each directive to a regular expression
(`%m` to `1[0-2]|0[1-9]|[1-9]`, `%d` to `3[01]|[12]\d|0[1-9]|[1-9]`,
`%Y` to `\d\d\d\d`, `%y` to `\d\d`); everything else in the format string is
matched literally, the whole input must be consumed, missing fields default to
1900-01-01, and the final `datetime` constructor validates the day against the
month length.  The token matcher below reproduces that, including the
backtracking between the two-digit and one-digit alternatives. -/

/-- One compiled token of a strptime format string. -/
inductive FTok where
  | lit (c : Char)
  | mm
  | dd
  | y4
  | y2
deriving DecidableEq

/-- Partially filled date fields during a strptime match. -/
structure PartDate where
  y : Option Nat
  mo : Option Nat
  dy : Option Nat

/-- Value of a decimal digit character. -/
def dval (c : Char) : Nat := c.toNat - 48

/-- Two-character alternatives of the `%m` regex `1[0-2]|0[1-9]`. -/
def twoDigitMonth (a b : Char) : Bool :=
  (a = '1' && '0' ≤ b && b ≤ '2') || (a = '0' && '1' ≤ b && b ≤ '9')

/-- Two-character alternatives of the `%d` regex `3[01]|[12]\d|0[1-9]`. -/
def twoDigitDay (a b : Char) : Bool :=
  (a = '3' && (b = '0' || b = '1')) || ((a = '1' || a = '2') && b.isDigit) ||
    (a = '0' && '1' ≤ b && b ≤ '9')

/-- Single-character alternative `[1-9]` shared by `%m` and `%d`. -/
def oneNonZero (a : Char) : Bool := '1' ≤ a && a ≤ '9'

/-- Match a compiled format against the input characters, requiring the whole
input to be consumed, with the same alternative order and backtracking as the
Python regexes. -/
def matchToks : List FTok → List Char → PartDate → Option PartDate
  | [], xs, pd => if xs.isEmpty then some pd else none
  | .lit c :: ts, xs, pd =>
    match xs with
    | [] => none
    | x :: rest => if x = c then matchToks ts rest pd else none
  | .mm :: ts, xs, pd =>
    let two :=
      match xs with
      | a :: b :: rest =>
        if twoDigitMonth a b then
          matchToks ts rest { pd with mo := some (dval a * 10 + dval b) }
        else none
      | _ => none
    (match two with
     | some r => some r
     | none =>
       match xs with
       | a :: rest =>
         if oneNonZero a then matchToks ts rest { pd with mo := some (dval a) } else none
       | [] => none)
  | .dd :: ts, xs, pd =>
    let two :=
      match xs with
      | a :: b :: rest =>
        if twoDigitDay a b then
          matchToks ts rest { pd with dy := some (dval a * 10 + dval b) }
        else none
      | _ => none
    (match two with
     | some r => some r
     | none =>
       match xs with
       | a :: rest =>
         if oneNonZero a then matchToks ts rest { pd with dy := some (dval a) } else none
       | [] => none)
  | .y4 :: ts, xs, pd =>
    match xs with
    | a :: b :: c :: d :: rest =>
      if a.isDigit && b.isDigit && c.isDigit && d.isDigit then
        matchToks ts rest { pd with y := some (digitsVal [a, b, c, d]) }
      else none
    | _ => none
  | .y2 :: ts, xs, pd =>
    match xs with
    | a :: b :: rest =>
      if a.isDigit && b.isDigit then
        matchToks ts rest
          { pd with y := some (if dval a * 10 + dval b ≤ 68 then 2000 + dval a * 10 + dval b
                               else 1900 + dval a * 10 + dval b) }
      else none
    | _ => none

/-- Gregorian leap-year test, as used by `datetime`. -/
def isLeap (y : Nat) : Bool := y % 4 = 0 && (y % 100 ≠ 0 || y % 400 = 0)

/-- Number of days in a month, as validated by the `datetime` constructor. -/
def daysInMonth (y m : Nat) : Nat :=
  if m = 2 then (if isLeap y then 29 else 28)
  else if m = 4 || m = 6 || m = 9 || m = 11 then 30
  else 31

/-- A concrete calendar date (the date part of a Python `datetime`). -/
structure PyDate where
  year : Nat
  month : Nat
  day : Nat
deriving DecidableEq

/-- Python `datetime.strptime(s, fmt)` restricted to the date directives used
by this repository: `none` models ValueError. -/
def strptime (s : String) (fmt : List FTok) : Option PyDate :=
  match matchToks fmt s.data ⟨none, none, none⟩ with
  | none => none
  | some pd =>
    let y := pd.y.getD 1900
    let m := pd.mo.getD 1
    let d := pd.dy.getD 1
    if d ≤ daysInMonth y m then some ⟨y, m, d⟩ else none

/-- Characters of a plain string as literal format tokens (how a year value
interpolated into an f-string format behaves under strptime). -/
def litToks (s : String) : List FTok := s.data.map FTok.lit

def fmtYmdDash : List FTok := [.y4, .lit '-', .mm, .lit '-', .dd]

def fmtMDYSlash : List FTok := [.mm, .lit '/', .dd, .lit '/', .y4]

def fmtDMYSlash : List FTok := [.dd, .lit '/', .mm, .lit '/', .y4]

def fmtMDYDash : List FTok := [.mm, .lit '-', .dd, .lit '-', .y4]

def fmtDMYDash : List FTok := [.dd, .lit '-', .mm, .lit '-', .y4]

def fmtYmdSlash : List FTok := [.y4, .lit '/', .mm, .lit '/', .dd]

def fmtMDy2 : List FTok := [.mm, .lit '/', .dd, .lit '/', .y2]

def fmtDMy2 : List FTok := [.dd, .lit '/', .mm, .lit '/', .y2]

def fmtY2md : List FTok := [.y2, .lit '-', .mm, .lit '-', .dd]

def fmtMDSlash : List FTok := [.mm, .lit '/', .dd]

def fmtDMSlash : List FTok := [.dd, .lit '/', .mm]

/-- The format list of `CSVParser._parse_date`, in source order. -/
def csvDateFormats : List (List FTok) :=
  [fmtYmdDash, fmtMDYSlash, fmtDMYSlash, fmtMDYDash, fmtDMYDash, fmtYmdSlash,
   fmtMDy2, fmtDMy2, fmtY2md]

/-- First format of a list that parses the string (the shared try/except
loop of both parsers). -/
def tryFormats (s : String) : List (List FTok) → Option PyDate
  | [] => none
  | fmt :: rest =>
    match strptime s fmt with
    | some d => some d
    | none => tryFormats s rest

/-- A pandas cell: `none` is NaN, `some s` a text value. -/
abbrev Cell := Option String

/-- `CSVParser._parse_date`: NaN gives `None`, otherwise the stripped string is
tried against the format list. -/
def parse_date (c : Cell) : Option PyDate :=
  match c with
  | none => none
  | some s => tryFormats (pyStrip s) csvDateFormats

/-- The format list of `PDFParser._parse_date_flexible`, in source order. -/
def flexFormats : List (List FTok) :=
  [fmtMDYSlash, fmtDMYSlash, fmtYmdDash, fmtMDYDash, fmtDMYDash, fmtMDSlash, fmtDMSlash]

/-- Whether the format string contains a slash (the `if '/' in fmt` test;
slashes occur in these formats only as literal tokens). -/
def fmtHasSlash (fmt : List FTok) : Bool := fmt.contains (.lit '/')

/-- Loop body of `PDFParser._parse_date_flexible`: for a two-field input the
current year is appended to both the string and the format before parsing.
Note the appended year enters the format as literal characters, not as a
`%Y` directive. -/
def tryFlex (year : Nat) (s : String) : List (List FTok) → Option PyDate
  | [] => none
  | fmt :: rest =>
    let attempt :=
      if countChar s '/' = 1 || countChar s '-' = 1 then
        if fmtHasSlash fmt then
          strptime (s ++ "/" ++ toString year) (fmt ++ [.lit '/'] ++ litToks (toString year))
        else
          strptime (s ++ "-" ++ toString year) (fmt ++ [.lit '-'] ++ litToks (toString year))
      else strptime s fmt
    match attempt with
    | some d => some d
    | none => tryFlex year s rest

/-- `PDFParser._parse_date_flexible`, with the processing year (the source
reads `datetime.now().year`) passed explicitly. -/
def parse_date_flexible (year : Nat) (s : String) : Option PyDate :=
  tryFlex year s flexFormats

/-- Date step of `PDFParser._parse_bank_specific_pdf`: a two-slash-field date
string gets the current year appended to string and format (again as literal
characters), otherwise the bank format is used directly. -/
def parseBankDate (year : Nat) (fmt : List FTok) (dateStr : String) : Option PyDate :=
  if countChar dateStr '/' = 1 then
    strptime (dateStr ++ "/" ++ toString year) (fmt ++ [.lit '/'] ++ litToks (toString year))
  else strptime dateStr fmt

/-! ## CSVParser -/

/-- One DataFrame row: an association list from column name to cell.  `col in
row.index` is modelled by a successful lookup. -/
abbrev Row := List (String × Cell)

/-- A parsed CSV file: the column headers and the rows. -/
structure DataFrame where
  columns : List String
  rows : List Row

/-- Access `row[col]`: `none` models the KeyError path. -/
def lookupCell (row : Row) (col : String) : Option Cell :=
  (row.find? (fun p => p.1 = col)).map (fun p => p.2)

/-- `CSVParser._find_column`: first listed alias present in the row index. -/
def find_column (row : Row) : List String → Option String
  | [] => none
  | n :: rest => if (lookupCell row n).isSome then some n else find_column row rest

/-- Python `str(cell)`: a NaN cell prints as "nan". -/
def cellStr (c : Cell) : String :=
  match c with
  | none => "nan"
  | some s => s

/-- The repeated CSV cell-to-number step
`float(str(val).replace(',', '').replace('$', '').replace('₹', ''))` guarded by
`pd.notna(val) and str(val).strip() != ''`; any failure mode (NaN, empty,
ValueError) makes the loop continue, modelled as `none`. -/
def parseCell (c : Cell) : Option ℚ :=
  match c with
  | none => none
  | some s =>
    if pyStrip s = "" then none
    else pyFloat (String.mk (s.data.filter (fun ch => !(ch = ',' || ch = '$' || ch = '₹'))))

/-- Per-bank column aliases (`CSVParser.bank_column_mappings`). -/
structure ColumnMapping where
  date : List String
  description : List String
  amount : List String
  type : List String
deriving DecidableEq

def bank_column_mappings : String → Option ColumnMapping
  | "chase" => some ⟨["Transaction Date", "Date"], ["Description"], ["Amount"], ["Type"]⟩
  | "wells_fargo" => some ⟨["Date"], ["Description"], ["Amount"], ["Type"]⟩
  | "bank_of_america" => some ⟨["Date"], ["Description"], ["Amount"], ["Type"]⟩
  | "citibank" => some ⟨["Date"], ["Description"], ["Debit", "Credit"], ["Type"]⟩
  | "hdfc" => some ⟨["Date"], ["Narration", "Description"], ["Debit", "Credit", "Amount"], ["Type"]⟩
  | "axis" =>
    some ⟨["Tran Date", "Date"], ["Particulars", "Description"], ["Debit", "Credit", "Amount"], ["Type"]⟩
  | _ => none

/-- `CSVParser._detect_bank_from_columns`. -/
def detect_bank_from_columns (columns : List String) : String :=
  let columnsLower := columns.map toLowerStr
  let columnsStr := String.intercalate " " columnsLower
  if containsSub columnsStr "transaction date" || columnsLower.any (fun c => containsSub c "chase") then
    "chase"
  else if columnsLower.any (fun c => containsSub c "wells") then "wells_fargo"
  else if columnsLower.any (fun c => containsSub c "bofa" || containsSub c "bankofamerica") then
    "bank_of_america"
  else if columnsLower.any (fun c => containsSub c "citi") then "citibank"
  else if containsSub columnsStr "narration" || columnsLower.any (fun c => containsSub c "hdfc") then
    "hdfc"
  else if containsSub columnsStr "particulars" || containsSub columnsStr "tran date" then "axis"
  else "unknown"

/-- First for-loop of `CSVParser._extract_amount_and_type` (separate
debit/credit columns): either an early return from a generic amount column
(`Sum.inl`), or the collected debit and credit values (`Sum.inr`). -/
def dcLoop (row : Row) : List String → Option ℚ → Option ℚ →
    (Option ℚ × String) ⊕ (Option ℚ × Option ℚ)
  | [], db, cr => .inr (db, cr)
  | col :: rest, db, cr =>
    match lookupCell row col with
    | none => dcLoop row rest db cr
    | some cell =>
      match parseCell cell with
      | none => dcLoop row rest db cr
      | some amount =>
        if containsSub (toLowerStr col) "debit" then dcLoop row rest (some amount) cr
        else if containsSub (toLowerStr col) "credit" then dcLoop row rest db (some amount)
        else .inl (some (qAbs amount), if amount < 0 then "debit" else "credit")

/-- Second for-loop of `CSVParser._extract_amount_and_type` (single amount
column): the first parseable listed column determines magnitude and type,
otherwise `(None, 'debit')`. -/
def singleLoop (row : Row) : List String → Option ℚ × String
  | [] => (none, "debit")
  | col :: rest =>
    match lookupCell row col with
    | none => singleLoop row rest
    | some cell =>
      match parseCell cell with
      | none => singleLoop row rest
      | some amount => (some (qAbs amount), if amount < 0 then "debit" else "credit")

/-- The `elif credit_val ...` step after the debit/credit loop, falling through
to the single-column loop when neither value is positive. -/
def creditOrSingle (cr : Option ℚ) (row : Row) (amountCols : List String) : Option ℚ × String :=
  match cr with
  | some c => if 0 < c then (some c, "credit") else singleLoop row amountCols
  | none => singleLoop row amountCols

/-- `CSVParser._extract_amount_and_type`. -/
def extract_amount_and_type (row : Row) (mapping : ColumnMapping) (bankFormat : String) :
    Option ℚ × String :=
  if bankFormat = "citibank" || bankFormat = "hdfc" || bankFormat = "axis" then
    match dcLoop row mapping.amount none none with
    | .inl res => res
    | .inr (db, cr) =>
      match db with
      | some d => if 0 < d then (some d, "debit") else creditOrSingle cr row mapping.amount
      | none => creditOrSingle cr row mapping.amount
  else singleLoop row mapping.amount

/-- A normalized transaction record, one element of the DataFrame built by the
extractors. -/
structure Txn where
  date : PyDate
  description : String
  amount : ℚ
  type : String
  bank : String
deriving DecidableEq

/-- Description lookup of `_parse_bank_specific_csv`:
`str(row[desc_col]) if desc_col else 'Unknown'`. -/
def bankRowDescription (mapping : ColumnMapping) (row : Row) : String :=
  match find_column row mapping.description with
  | some descCol => cellStr ((lookupCell row descCol).getD none)
  | none => "Unknown"

/-- Per-row body of `CSVParser._parse_bank_specific_csv`; `none` covers every
`continue` path. -/
def processBankRow (mapping : ColumnMapping) (bankFormat : String) (row : Row) : Option Txn :=
  match find_column row mapping.date with
  | none => none
  | some dateCol =>
    match lookupCell row dateCol with
    | none => none
    | some dateCell =>
      match parse_date dateCell with
      | none => none
      | some date =>
        match extract_amount_and_type row mapping bankFormat with
        | (some amount, transType) =>
          if amount ≠ 0 then
            some ⟨date, pyStrip (bankRowDescription mapping row), qAbs amount, transType, bankFormat⟩
          else none
        | (none, _) => none

/-- `CSVParser._parse_bank_specific_csv`: rows that parse become transactions,
malformed rows are skipped. -/
def parse_bank_specific_csv (df : DataFrame) (bankFormat : String) : List Txn :=
  df.rows.filterMap (processBankRow ((bank_column_mappings bankFormat).getD ⟨[], [], [], []⟩) bankFormat)

/-- Amount loop of `CSVParser._parse_generic_csv`; the outer `none` is the
KeyError path that skips the whole row. -/
def genericAmountLoop (row : Row) : List String → Option (Option ℚ × String)
  | [] => some (none, "debit")
  | col :: rest =>
    match lookupCell row col with
    | none => none
    | some cell =>
      match parseCell cell with
      | none => genericAmountLoop row rest
      | some amount =>
        let ty :=
          if containsSub (toLowerStr col) "credit" then "credit"
          else if 0 < amount && !containsSub (toLowerStr col) "debit" then "credit"
          else "debit"
        some (some amount, ty)

/-- Per-row body of `CSVParser._parse_generic_csv`. -/
def processGenericRow (dateCol descCol : String) (amountCols : List String) (row : Row) :
    Option Txn :=
  match lookupCell row dateCol with
  | none => none
  | some dateCell =>
    match parse_date dateCell with
    | none => none
    | some date =>
      match lookupCell row descCol with
      | none => none
      | some descCell =>
        match genericAmountLoop row amountCols with
        | none => none
        | some (amount, transType) =>
          match amount with
          | some a =>
            if a ≠ 0 then some ⟨date, pyStrip (cellStr descCell), qAbs a, transType, "unknown"⟩
            else none
          | none => none

/-- Candidate date columns of `_parse_generic_csv`. -/
def genericDateCols (columns : List String) : List String :=
  columns.filter (fun col => ["date", "time"].any (fun w => containsSub (toLowerStr col) w))

/-- Candidate description columns of `_parse_generic_csv`. -/
def genericDescCols (columns : List String) : List String :=
  columns.filter
    (fun col => ["description", "narration", "particulars", "memo"].any
      (fun w => containsSub (toLowerStr col) w))

/-- Candidate amount columns of `_parse_generic_csv`. -/
def genericAmountCols (columns : List String) : List String :=
  columns.filter
    (fun col => ["amount", "debit", "credit"].any (fun w => containsSub (toLowerStr col) w))

/-- `CSVParser._parse_generic_csv`: raises (`Except.error`) when no date,
description, or amount-like column exists; otherwise extracts per-row with the
first matching column of each kind. -/
def parse_generic_csv (df : DataFrame) : Except String (List Txn) :=
  match genericDateCols df.columns, genericDescCols df.columns, genericAmountCols df.columns with
  | dateCol :: _, descCol :: _, amountCols@(_ :: _) =>
    .ok (df.rows.filterMap (processGenericRow dateCol descCol amountCols))
  | _, _, _ => .error "Could not identify required columns in CSV"

/-- `CSVParser.parse_csv` after reading the file: detect the bank from the
headers, then dispatch to the generic or the bank-specific extractor. -/
def parse_csv (df : DataFrame) : Except String (List Txn) :=
  let bankFormat := detect_bank_from_columns df.columns
  if bankFormat = "unknown" then parse_generic_csv df
  else .ok (parse_bank_specific_csv df bankFormat)

/-! ## PDFParser

The text of the PDF pages is scanned with `re.findall`, which yields the list
of matched `(date, description, amount)` groups; the extractors below consume
that list.  A shape predicate records which triples the bank patterns can
produce. -/

/-- `PDFParser._parse_amount`: strip every character that is not a digit,
dot, comma or minus, drop commas, parse with `float`, and negate when the raw
token contains a minus or an opening parenthesis.  ValueError yields `0.0`.
Note that a leading minus survives into the cleaned string, so a negative
numeral is parsed negative and then negated again to a positive value. -/
def cleanAmountChars (s : String) : List Char :=
  (s.data.filter (fun c => c.isDigit || c = '.' || c = ',' || c = '-')).filter (fun c => c ≠ ',')

/-- The rest of `PDFParser._parse_amount` after cleaning: parse with `float`,
negate when the raw token contains a minus or an opening parenthesis, and
return `0.0` on ValueError. -/
def parse_amount (s : String) : ℚ :=
  let isNeg := s.data.contains '-' || s.data.contains '('
  match pyFloat (String.mk (cleanAmountChars s)) with
  | none => 0
  | some a => if isNeg then -a else a

/-- A `(date, description, amount)` group triple from `re.findall`. -/
abbrev MatchTriple := String × String × String

/-- Per-match body of `PDFParser._parse_bank_specific_pdf`; `none` is the
`except: continue` path (a date that fails to parse). -/
def processBankMatch (year : Nat) (bankFormat : String) (fmt : List FTok) (t : MatchTriple) :
    Option Txn :=
  match parseBankDate year fmt t.1 with
  | none => none
  | some date =>
    let amount := parse_amount t.2.2
    some ⟨date, pyStrip t.2.1, qAbs amount, if amount < 0 then "debit" else "credit", bankFormat⟩

/-- Date formats of `PDFParser.bank_patterns` (`none` for an unknown bank, in
which case the source falls back to generic parsing). -/
def bankDateFmt : String → Option (List FTok)
  | "chase" => some fmtMDSlash
  | "wells_fargo" => some fmtMDYSlash
  | "bank_of_america" => some fmtMDYSlash
  | "citibank" => some fmtMDYSlash
  | "hdfc" => some fmtDMYSlash
  | "axis" => some fmtDMYDash
  | _ => none

/-- `PDFParser._parse_bank_specific_pdf` over the findall matches of the
bank's transaction pattern. -/
def parse_bank_specific_pdf (year : Nat) (bankFormat : String) (ms : List MatchTriple) :
    List Txn :=
  match bankDateFmt bankFormat with
  | none => []
  | some fmt => ms.filterMap (processBankMatch year bankFormat fmt)

/-- Per-match body of `PDFParser._parse_generic_pdf`. -/
def processGenericMatch (year : Nat) (t : MatchTriple) : Option Txn :=
  match parse_date_flexible year t.1 with
  | none => none
  | some date =>
    let amount := parse_amount t.2.2
    some ⟨date, pyStrip t.2.1, qAbs amount, if amount < 0 then "debit" else "credit", "unknown"⟩

/-- `PDFParser._parse_generic_pdf`: the two generic patterns are scanned in
sequence and their matches accumulated. -/
def parse_generic_pdf (year : Nat) (ms1 ms2 : List MatchTriple) : List Txn :=
  (ms1 ++ ms2).filterMap (processGenericMatch year)

/-- Shape of the date group `\d{2}/\d{2}/\d{4}` of the wells_fargo /
bank_of_america / citibank pattern. -/
def dateShapeMDY (s : String) : Bool :=
  match s.data with
  | [a, b, '/', c, d, '/', e, f, g, h] => [a, b, c, d, e, f, g, h].all Char.isDigit
  | _ => false

/-- Shape of the amount group `-?\$?[\d,]+\.?\d*`. -/
def amountShape (s : String) : Bool :=
  let l := s.data
  let l := match l with | '-' :: r => r | _ => l
  let l := match l with | '$' :: r => r | _ => l
  let body := l.takeWhile (fun c => c.isDigit || c = ',')
  let rest := l.drop body.length
  if body.isEmpty then false
  else
    match rest with
    | [] => true
    | '.' :: ds => ds.all Char.isDigit
    | _ => false

/-- Shape of the description group `(.+?)`: nonempty, no newline. -/
def descShape (s : String) : Bool :=
  !s.data.isEmpty && s.data.all (fun c => c ≠ '\n')

/-- Necessary shape of any findall match of the wells_fargo pattern
`(\d{2}/\d{2}/\d{4})\s+(.+?)\s+(-?\$?[\d,]+\.?\d*)`. -/
def wellsMatchShape (t : MatchTriple) : Bool :=
  dateShapeMDY t.1 && descShape t.2.1 && amountShape t.2.2

/-! ## TransactionCategorizer -/

/-- `TransactionCategorizer.category_patterns`, in dict insertion order. -/
def category_patterns : List (String × List String) :=
  [("Food & Dining",
    ["restaurant", "cafe", "coffee", "starbucks", "mcdonalds", "subway",
     "pizza", "burger", "food", "dining", "doordash", "uber eats",
     "grubhub", "swiggy", "zomato", "dominos", "kfc", "taco bell"]),
   ("Groceries",
    ["walmart", "target", "costco", "kroger", "safeway", "whole foods",
     "trader joe", "grocery", "supermarket", "big bazaar", "dmart",
     "reliance fresh", "more", "spencer"]),
   ("Transportation",
    ["uber", "lyft", "taxi", "metro", "bus", "train", "airline",
     "gas station", "shell", "exxon", "chevron", "bp", "ola",
     "autorickshaw", "parking", "toll"]),
   ("Shopping",
    ["amazon", "ebay", "flipkart", "myntra", "ajio", "nike",
     "adidas", "h&m", "zara", "uniqlo", "walmart", "target",
     "best buy", "apple store", "macy", "nordstrom"]),
   ("Entertainment",
    ["netflix", "spotify", "disney", "hulu", "amazon prime",
     "youtube", "movie", "theater", "cinema", "concert",
     "hotstar", "zee5", "sony liv", "voot"]),
   ("Utilities",
    ["electric", "electricity", "water", "gas", "internet",
     "phone", "mobile", "broadband", "wifi", "cable",
     "bsnl", "airtel", "jio", "vodafone"]),
   ("Healthcare",
    ["hospital", "clinic", "pharmacy", "medical", "doctor",
     "dentist", "cvs", "walgreens", "apollo", "fortis",
     "max healthcare", "aiims"]),
   ("Banking & Finance",
    ["bank", "atm", "transfer", "fee", "interest", "loan",
     "credit card", "mortgage", "insurance", "premium",
     "mutual fund", "sip", "investment"]),
   ("Education",
    ["school", "university", "college", "tuition", "course",
     "udemy", "coursera", "khan academy", "byju", "unacademy"]),
   ("Travel",
    ["hotel", "airbnb", "booking", "expedia", "makemytrip",
     "goibibo", "yatra", "cleartrip", "oyo", "treebo"]),
   ("Salary/Income",
    ["salary", "payroll", "wages", "income", "bonus",
     "dividend", "interest earned", "refund"])]

/-- Is this a word character for `\b` (Python `\w`: alphanumeric or
underscore)? -/
def isWordChar (c : Char) : Bool := c.isAlphanum || c = '_'

/-- Does one of the words occur at the head of the character list with a word
boundary after it? -/
def wordAtHead (words : List (List Char)) (l : List Char) : Bool :=
  words.any (fun w =>
    w.isPrefixOf l && !(((l.drop w.length).head?.map isWordChar).getD false))

/-- Scan for `\b(word1|word2|...)\b` in the character list; the boolean tracks
whether the previous character was a non-word character (or the start). -/
def wordScan (words : List (List Char)) : List Char → Bool → Bool
  | [], _ => false
  | l@(c :: rest), prevBoundary =>
    (prevBoundary && wordAtHead words l) || wordScan words rest (!isWordChar c)

/-- `re.search(r'\b(w1|w2|...)\b', s)` as a boolean. -/
def wordSearch (s : String) (words : List String) : Bool :=
  wordScan (words.map String.data) s.data true

/-- Keyword-table walk of `TransactionCategorizer._categorize_transaction`:
first category, in table order, one of whose keywords is a case-insensitive
substring of the description. -/
def categoryWalk (descriptionLower : String) : List (String × List String) → Option String
  | [] => none
  | (category, patterns) :: rest =>
    if patterns.any (fun p => containsSub descriptionLower (toLowerStr p)) then some category
    else categoryWalk descriptionLower rest

/-- `TransactionCategorizer._categorize_transaction` on a non-NaN
description. -/
def categorize_transaction (description : String) : String :=
  let descriptionLower := toLowerStr description
  match categoryWalk descriptionLower category_patterns with
  | some category => category
  | none =>
    if wordSearch descriptionLower ["atm", "withdrawal"] then "Banking & Finance"
    else if wordSearch descriptionLower ["transfer", "payment"] then "Banking & Finance"
    else if wordSearch descriptionLower ["gas", "fuel", "petrol", "diesel"] then "Transportation"
    else if wordSearch descriptionLower ["medical", "health", "medicine"] then "Healthcare"
    else "Other"

/-! ## Transaction hash (database/operations.py) -/

/-- `date.strftime('%Y%m%d')`: zero-padded digits. -/
def padNum (width n : Nat) : String :=
  let s := toString n
  String.mk (List.replicate (width - s.length) '0') ++ s

/-- The `%Y%m%d` date key used inside the transaction hash. -/
def dateKey (d : PyDate) : String :=
  padNum 4 d.year ++ padNum 2 d.month ++ padNum 2 d.day

/-- Python `f"{x}"` on a (nonnegative-denominator) rational that has a finite
decimal expansion: the idealisation of `repr(float)`, e.g. `1.5 ↦ "1.5"`,
`50 ↦ "50.0"`.  Seventeen fractional digits are produced and trailing zeros
dropped, keeping at least one. -/
def fracDigits (q : ℚ) : Nat → List Char
  | 0 => []
  | n + 1 =>
    let q10 := q * 10
    let d := qIntPart q10
    Char.ofNat (48 + d) :: fracDigits (q10 - (d : ℚ)) n

/-- Drop trailing '0' characters but keep at least one digit. -/
def trimZeros (l : List Char) : List Char :=
  match (l.reverse.dropWhile (fun c => c = '0')).reverse with
  | [] => ['0']
  | r => r

/-- Decimal rendering of a rational, Python-float-repr style. -/
def pyFloatRepr (q : ℚ) : String :=
  let sign := if q < 0 then "-" else ""
  let aq := qAbs q
  let ip := qIntPart aq
  sign ++ toString ip ++ "." ++ String.mk (trimZeros (fracDigits (aq - (ip : ℚ)) 17))

/-- The string hashed by `TransactionManager.generate_transaction_hash`:
`f"{date.strftime('%Y%m%d')}{amount}{description}"`.  Note there is no
separator between the three fields. -/
def hashInput (date : PyDate) (amount : ℚ) (description : String) : String :=
  dateKey date ++ pyFloatRepr amount ++ description

/-- `TransactionManager.generate_transaction_hash`, with the SHA-256 digest
abstracted as an arbitrary function `sha`. -/
def generate_transaction_hash (sha : String → String) (date : PyDate) (amount : ℚ)
    (description : String) : String :=
  sha (hashInput date amount description)

/-! ## Persistence and the upload flow (database/operations.py, main.py)

The SQL store is modelled as in-memory lists of records; SHA-256 over file
bytes and over hash strings is abstracted as a function argument `sha`, and
the whole parser (`bank_parser.parse_file`) as a function argument `parse`
(it is a pure function of the file, so re-parsing the same file gives the
same result, as in the code). -/

/-- A row of the `uploaded_files` table (models.UploadedFile). -/
structure FileRec where
  userId : Nat
  fileName : String
  fileHash : String
  fileSize : Nat
  bankDetected : String
  transactionsCount : Nat
  processingStatus : String
deriving DecidableEq

/-- A row of the `transactions` table, with the fields the claims are about. -/
structure TxnRec where
  userId : Nat
  bankAccountId : Nat
  txHash : String
  category : String
deriving DecidableEq

/-- A row of the `bank_accounts` table. -/
structure AccountRec where
  id : Nat
  userId : Nat
  bankName : String
  accountName : String
deriving DecidableEq

/-- The database state. -/
structure Store where
  files : List FileRec
  txns : List TxnRec
  accounts : List AccountRec
deriving DecidableEq

/-- An uploaded file: its name and raw content (bytes as a string). -/
structure FileInput where
  name : String
  content : String
deriving DecidableEq

/-- `FileManager.is_file_processed`: does ANY uploaded-file record (for any
user) carry the hash of these bytes? -/
def is_file_processed (sha : String → String) (s : Store) (content : String) : Bool :=
  s.files.any (fun r => r.fileHash = sha content)

/-- `FileManager.record_file_upload`: append a record with status
'processed'. -/
def record_file_upload (sha : String → String) (s : Store) (userId : Nat) (fileName content : String)
    (bankDetected : String) (transactionsCount : Nat) : Store :=
  { s with files := s.files ++
      [⟨userId, fileName, sha content, content.length, bankDetected, transactionsCount, "processed"⟩] }

/-- `BankAccountManager.create_or_get_account`: reuse a matching account or
append a fresh one. -/
def create_or_get_account (s : Store) (userId : Nat) (bankName accountName : String) :
    Store × Nat :=
  match s.accounts.find? (fun a => a.userId = userId && a.bankName = bankName &&
      a.accountName = accountName) with
  | some a => (s, a.id)
  | none =>
    let newId := s.accounts.length
    ({ s with accounts := s.accounts ++ [⟨newId, userId, bankName, accountName⟩] }, newId)

/-- A categorized transaction as handed to `save_transactions`. -/
structure CatTxn where
  txn : Txn
  category : String
deriving DecidableEq

/-- `TransactionCategorizer.categorize_transactions`. -/
def categorize_transactions (txns : List Txn) : List CatTxn :=
  txns.map (fun t => ⟨t, categorize_transaction t.description⟩)

/-- Loop of `TransactionManager.save_transactions`: per transaction, compute
the content hash, count a duplicate when a record with the same user and hash
already exists (pending inserts included, matching SQLAlchemy autoflush),
otherwise insert. -/
def saveLoop (sha : String → String) (userId bankAccountId : Nat) :
    List CatTxn → Store → Nat → Nat → Store × Nat × Nat
  | [], st, saved, dups => (st, saved, dups)
  | t :: rest, st, saved, dups =>
    if st.txns.any (fun r => r.userId = userId &&
        r.txHash = generate_transaction_hash sha t.txn.date t.txn.amount t.txn.description) then
      saveLoop sha userId bankAccountId rest st saved (dups + 1)
    else
      saveLoop sha userId bankAccountId rest
        { st with txns := st.txns ++
            [⟨userId, bankAccountId,
              generate_transaction_hash sha t.txn.date t.txn.amount t.txn.description,
              t.category⟩] }
        (saved + 1) dups

/-- `TransactionManager.save_transactions`: returns the store together with
the saved and duplicate counts. -/
def save_transactions (sha : String → String) (s : Store) (txns : List CatTxn)
    (userId bankAccountId : Nat) : Store × Nat × Nat :=
  saveLoop sha userId bankAccountId txns s 0 0

/-- `BankParser.detect_bank_format` on the raw file content. -/
def detect_bank_format (content : String) : String :=
  let contentLower := toLowerStr content
  if containsSub contentLower "chase" || containsSub contentLower "jpmorgan" then "chase"
  else if containsSub contentLower "wells fargo" || containsSub contentLower "wellsfargo" then
    "wells_fargo"
  else if containsSub contentLower "bank of america" || containsSub contentLower "bankofamerica" then
    "bank_of_america"
  else if containsSub contentLower "citibank" || containsSub contentLower "citi" then "citibank"
  else if containsSub contentLower "hdfc" then "hdfc"
  else if containsSub contentLower "axis" then "axis"
  else "unknown"

/-- Outcome reported for one uploaded file by `process_uploaded_files`. -/
inductive Report where
  | alreadyProcessed
  | processed (saved duplicates : Nat)
  | noTransactions
  | errorMsg (msg : String)
deriving DecidableEq

/-- Newly inserted transactions according to a report. -/
def Report.inserted : Report → Nat
  | .processed saved _ => saved
  | _ => 0

/-- Per-file body of `main.process_uploaded_files`: the duplicate-file check
runs first and skips the file before any parsing; a parser exception is
reported as an error; an empty parse changes nothing; otherwise the
transactions are categorized and saved, and the file recorded. -/
def processFile (sha : String → String) (parse : FileInput → Except String (List Txn))
    (s : Store) (userId : Nat) (f : FileInput) : Store × Report :=
  if is_file_processed sha s f.content then (s, .alreadyProcessed)
  else
    match parse f with
    | .error e => (s, .errorMsg e)
    | .ok txns =>
      if txns.isEmpty then (s, .noTransactions)
      else
        let cat := categorize_transactions txns
        let bankFormat := detect_bank_format f.content
        let s1acc := create_or_get_account s userId bankFormat "Primary"
        let saved := save_transactions sha s1acc.1 cat userId s1acc.2
        let s3 := record_file_upload sha saved.1 userId f.name f.content bankFormat saved.2.1
        (s3, .processed saved.2.1 saved.2.2)

/-- Test fixture: a row of a statement with separate Debit and Credit
columns, in the citibank header layout. -/
def citiRow (dateCell descCell debitCell creditCell : Cell) : Row :=
  [("Date", dateCell), ("Description", descCell), ("Debit", debitCell), ("Credit", creditCell)]

/-! ## Supporting lemmas -/

theorem qAbs_pos {q : ℚ} (h : q ≠ 0) : 0 < qAbs q := by
  unfold qAbs
  split
  · exact neg_pos.mpr (by assumption)
  · exact lt_of_le_of_ne (not_lt.mp (by assumption)) (Ne.symm h)

theorem qAbs_nonneg (q : ℚ) : 0 ≤ qAbs q := by
  unfold qAbs
  split
  · exact le_of_lt (neg_pos.mpr (by assumption))
  · exact not_lt.mp (by assumption)

theorem singleLoop_snd (row : Row) (cols : List String) :
    (singleLoop row cols).2 = "debit" ∨ (singleLoop row cols).2 = "credit" := by
  induction cols with
  | nil => left; rfl
  | cons c rest ih =>
    unfold singleLoop
    split
    · exact ih
    · split
      · exact ih
      · split
        · left; rfl
        · right; rfl

theorem dcLoop_inl_snd (row : Row) (cols : List String) :
    ∀ (db cr a : Option ℚ) (ty : String), dcLoop row cols db cr = .inl (a, ty) →
      ty = "debit" ∨ ty = "credit" := by
  induction cols with
  | nil =>
    intro db cr a ty h
    simp [dcLoop] at h
  | cons c rest ih =>
    intro db cr a ty h
    unfold dcLoop at h
    split at h
    · exact ih db cr a ty h
    · split at h
      · exact ih db cr a ty h
      · split at h
        · exact ih _ cr a ty h
        · split at h
          · exact ih db _ a ty h
          · split at h
            · obtain ⟨-, rfl⟩ := Prod.mk.injEq .. ▸ Sum.inl.inj h
              left; rfl
            · obtain ⟨-, rfl⟩ := Prod.mk.injEq .. ▸ Sum.inl.inj h
              right; rfl

theorem creditOrSingle_snd (cr : Option ℚ) (row : Row) (cols : List String) :
    (creditOrSingle cr row cols).2 = "debit" ∨ (creditOrSingle cr row cols).2 = "credit" := by
  unfold creditOrSingle
  split
  · split
    · exact Or.inr rfl
    · exact singleLoop_snd row cols
  · exact singleLoop_snd row cols

theorem extract_amount_and_type_snd (row : Row) (mapping : ColumnMapping) (bank : String) :
    (extract_amount_and_type row mapping bank).2 = "debit" ∨
      (extract_amount_and_type row mapping bank).2 = "credit" := by
  unfold extract_amount_and_type
  split
  · split
    · next res heq =>
      obtain ⟨a, ty⟩ := res
      exact dcLoop_inl_snd row mapping.amount none none a ty heq
    · next db cr heq =>
      split
      · split
        · exact Or.inl rfl
        · exact creditOrSingle_snd _ row mapping.amount
      · exact creditOrSingle_snd _ row mapping.amount
  · exact singleLoop_snd row mapping.amount

theorem genericAmountLoop_snd (row : Row) (cols : List String) :
    ∀ (a : Option ℚ) (ty : String), genericAmountLoop row cols = some (a, ty) →
      ty = "debit" ∨ ty = "credit" := by
  induction cols with
  | nil =>
    intro a ty h
    simp only [genericAmountLoop, Option.some.injEq, Prod.mk.injEq] at h
    left; exact h.2.symm
  | cons c rest ih =>
    intro a ty h
    unfold genericAmountLoop at h
    split at h
    · exact absurd h (by simp)
    · split at h
      · exact ih a ty h
      · simp only [Option.some.injEq, Prod.mk.injEq] at h
        split at h
        · right; exact h.2.symm
        · split at h
          · right; exact h.2.symm
          · left; exact h.2.symm

theorem processBankRow_inv (mapping : ColumnMapping) (bank : String) (row : Row) (t : Txn)
    (h : processBankRow mapping bank row = some t) :
    0 < t.amount ∧ (t.type = "credit" ∨ t.type = "debit") := by
  unfold processBankRow at h
  split at h
  · exact absurd h (by simp)
  · split at h
    · exact absurd h (by simp)
    · split at h
      · exact absurd h (by simp)
      · split at h
        · next amount transType heq =>
          split at h
          · next hne =>
            obtain rfl := Option.some.inj h
            refine ⟨qAbs_pos hne, ?_⟩
            have h2 := extract_amount_and_type_snd row mapping bank
            rw [heq] at h2
            exact h2.symm
          · exact absurd h (by simp)
        · exact absurd h (by simp)

theorem processGenericRow_inv (dateCol descCol : String) (amountCols : List String) (row : Row)
    (t : Txn) (h : processGenericRow dateCol descCol amountCols row = some t) :
    0 < t.amount ∧ (t.type = "credit" ∨ t.type = "debit") := by
  unfold processGenericRow at h
  split at h
  · exact absurd h (by simp)
  · split at h
    · exact absurd h (by simp)
    · split at h
      · exact absurd h (by simp)
      · split at h
        · exact absurd h (by simp)
        · split at h
          · split at h
            · obtain rfl := Option.some.inj h
              exact ⟨qAbs_pos (by assumption),
                (genericAmountLoop_snd row amountCols _ _ (by assumption)).symm⟩
            · exact absurd h (by simp)
          · exact absurd h (by simp)

theorem processBankMatch_inv (year : Nat) (bank : String) (fmt : List FTok) (m : MatchTriple)
    (t : Txn) (h : processBankMatch year bank fmt m = some t) :
    0 ≤ t.amount ∧ (t.type = "credit" ∨ t.type = "debit") := by
  unfold processBankMatch at h
  split at h
  · exact absurd h (by simp)
  · dsimp only at h
    obtain rfl := Option.some.inj h
    refine ⟨qAbs_nonneg _, ?_⟩
    dsimp only
    by_cases ha : parse_amount m.2.2 < 0
    · rw [if_pos ha]
      exact Or.inr rfl
    · rw [if_neg ha]
      exact Or.inl rfl

theorem processGenericMatch_inv (year : Nat) (m : MatchTriple) (t : Txn)
    (h : processGenericMatch year m = some t) :
    0 ≤ t.amount ∧ (t.type = "credit" ∨ t.type = "debit") := by
  unfold processGenericMatch at h
  split at h
  · exact absurd h (by simp)
  · dsimp only at h
    obtain rfl := Option.some.inj h
    refine ⟨qAbs_nonneg _, ?_⟩
    dsimp only
    by_cases ha : parse_amount m.2.2 < 0
    · rw [if_pos ha]
      exact Or.inr rfl
    · rw [if_neg ha]
      exact Or.inl rfl

theorem create_or_get_account_files (s : Store) (u : Nat) (b a : String) :
    (create_or_get_account s u b a).1.files = s.files := by
  unfold create_or_get_account
  split <;> rfl

theorem saveLoop_files (sha : String → String) (u a : Nat) :
    ∀ (txns : List CatTxn) (st : Store) (saved dups : Nat),
      (saveLoop sha u a txns st saved dups).1.files = st.files := by
  intro txns
  induction txns with
  | nil => intro st saved dups; rfl
  | cons t rest ih =>
    intro st saved dups
    unfold saveLoop
    split
    · exact ih st saved (dups + 1)
    · exact ih _ (saved + 1) dups

theorem save_transactions_files (sha : String → String) (s : Store) (txns : List CatTxn)
    (u a : Nat) : (save_transactions sha s txns u a).1.files = s.files :=
  saveLoop_files sha u a txns s 0 0

theorem is_file_processed_record (sha : String → String) (s : Store) (u : Nat)
    (fn c b : String) (n : Nat) :
    is_file_processed sha (record_file_upload sha s u fn c b n) c = true := by
  unfold is_file_processed record_file_upload
  simp

theorem processFile_of_processed (sha : String → String)
    (parse : FileInput → Except String (List Txn)) (st : Store) (u : Nat) (f : FileInput)
    (h : is_file_processed sha st f.content = true) :
    processFile sha parse st u f = (st, .alreadyProcessed) := by
  unfold processFile
  rw [if_pos h]

theorem processFile_cases (sha : String → String) (parse : FileInput → Except String (List Txn))
    (s : Store) (u : Nat) (f : FileInput) :
    (∃ n d, (processFile sha parse s u f).2 = .processed n d ∧
      is_file_processed sha (processFile sha parse s u f).1 f.content = true) ∨
    ((processFile sha parse s u f).1 = s ∧
      ∀ n d, (processFile sha parse s u f).2 ≠ .processed n d) := by
  unfold processFile
  split
  · exact Or.inr ⟨rfl, fun n d h => Report.noConfusion h⟩
  · split
    · exact Or.inr ⟨rfl, fun n d h => Report.noConfusion h⟩
    · split
      · exact Or.inr ⟨rfl, fun n d h => Report.noConfusion h⟩
      · dsimp only
        exact Or.inl ⟨_, _, rfl, is_file_processed_record _ _ _ _ _ _ _⟩

/-! ## Claim theorems -/

/-- C1, counterexample.  The claim says no extractor ever constructs a
zero-amount transaction.  The PDF bank-specific extractor has no zero check:
the wells_fargo pattern can match the amount token "0" (the triple satisfies
the pattern shape), and the extractor then constructs a transaction with
amount 0. -/
theorem C1_counterexample :
    wellsMatchShape ("01/02/2024", "X", "0") = true ∧
      parse_bank_specific_pdf 2024 "wells_fargo" [("01/02/2024", "X", "0")] =
        [⟨⟨2024, 1, 2⟩, "X", 0, "credit", "wells_fargo"⟩] ∧
      ¬(0 : ℚ) > 0 := by
  refine ⟨by decide, by decide, ?_⟩
  exact lt_irrefl 0

/-- C1, amended: every transaction constructed by any extractor has
`kind ∈ {credit, debit}`; the two CSV extractors guarantee a strictly
positive amount, but the two PDF (text) extractors only guarantee a
nonnegative amount — they can construct amount-0 transactions (zero or
unparseable amount tokens), as the counterexample shows. -/
theorem C1_amended :
    (∀ (df : DataFrame) (bank : String) (t : Txn), t ∈ parse_bank_specific_csv df bank →
      0 < t.amount ∧ (t.type = "credit" ∨ t.type = "debit")) ∧
    (∀ (df : DataFrame) (l : List Txn) (t : Txn), parse_generic_csv df = .ok l → t ∈ l →
      0 < t.amount ∧ (t.type = "credit" ∨ t.type = "debit")) ∧
    (∀ (year : Nat) (bank : String) (ms : List MatchTriple) (t : Txn),
      t ∈ parse_bank_specific_pdf year bank ms →
      0 ≤ t.amount ∧ (t.type = "credit" ∨ t.type = "debit")) ∧
    (∀ (year : Nat) (ms1 ms2 : List MatchTriple) (t : Txn), t ∈ parse_generic_pdf year ms1 ms2 →
      0 ≤ t.amount ∧ (t.type = "credit" ∨ t.type = "debit")) := by
  refine ⟨?_, ?_, ?_, ?_⟩
  · intro df bank t ht
    unfold parse_bank_specific_csv at ht
    obtain ⟨row, -, hrow⟩ := List.mem_filterMap.mp ht
    exact processBankRow_inv _ bank row t hrow
  · intro df l t hok ht
    unfold parse_generic_csv at hok
    split at hok
    · obtain rfl := Except.ok.inj hok
      obtain ⟨row, -, hrow⟩ := List.mem_filterMap.mp ht
      exact processGenericRow_inv _ _ _ row t hrow
    · exact absurd hok (by simp)
  · intro year bank ms t ht
    unfold parse_bank_specific_pdf at ht
    split at ht
    · exact absurd ht (by simp)
    · obtain ⟨m, -, hm⟩ := List.mem_filterMap.mp ht
      exact processBankMatch_inv year bank _ m t hm
  · intro year ms1 ms2 t ht
    unfold parse_generic_pdf at ht
    obtain ⟨m, -, hm⟩ := List.mem_filterMap.mp ht
    exact processGenericMatch_inv year m t hm

unseal Rat.add Rat.mul Rat.sub Rat.inv in
/-- Witness for C1_amended: a concrete chase CSV row yields a transaction
with positive amount and a valid kind. -/
theorem C1_witness :
    0 < (⟨⟨2024, 1, 15⟩, "A", 5, "credit", "chase"⟩ : Txn).amount ∧
      ((⟨⟨2024, 1, 15⟩, "A", 5, "credit", "chase"⟩ : Txn).type = "credit" ∨
        (⟨⟨2024, 1, 15⟩, "A", 5, "credit", "chase"⟩ : Txn).type = "debit") :=
  C1_amended.1
    ⟨["Date", "Description", "Amount"],
      [[("Date", some "01/15/2024"), ("Description", some "A"), ("Amount", some "5")]]⟩
    "chase" ⟨⟨2024, 1, 15⟩, "A", 5, "credit", "chase"⟩ (by decide)

/-- C2, counterexample.  The claim says the amount parser returns a designated
unparseable result distinct from 0; in fact `_parse_amount` returns `0.0` on
ValueError, so an input whose cleaned remainder is empty (hence not numeric)
is indistinguishable from a parsed `"0"`. -/
theorem C2_counterexample :
    cleanAmountChars "abc" = [] ∧ pyFloat (String.mk (cleanAmountChars "abc")) = none ∧
      parse_amount "abc" = 0 ∧ parse_amount "0" = 0 := by
  decide

/-- C2, amended: whenever the cleaned remainder of the raw token is not
numeric (`float` raises ValueError), `_parse_amount` returns exactly `0.0`:
zero is the error signal, and callers cannot distinguish it from a parsed
zero. -/
theorem C2_amended (s : String) (h : pyFloat (String.mk (cleanAmountChars s)) = none) :
    parse_amount s = 0 := by
  unfold parse_amount
  rw [h]

/-- Witness for C2_amended at the concrete input "abc". -/
theorem C2_witness :
    pyFloat (String.mk (cleanAmountChars "abc")) = none ∧ parse_amount "abc" = 0 :=
  ⟨by decide, C2_amended "abc" (by decide)⟩

/-- C3: the claim (and the source comments "Add current year for MM/DD or
DD/MM format") say a year-less two-field date gets the current processing
year.  The code appends the year to the strptime FORMAT string as literal
characters, so the format has no year directive and strptime falls back to
its default year 1900; a dash-separated two-field date parses under no format
at all.  Evaluation of both code paths (generic flexible parser, and the
bank-specific path with the chase `%m/%d` layout) at processing year 2025. -/
theorem C3_code_evaluation :
    parse_date_flexible 2025 "01/15" = some ⟨1900, 1, 15⟩ ∧
      parseBankDate 2025 ((bankDateFmt "chase").getD []) "01/15" = some ⟨1900, 1, 15⟩ ∧
      parse_date_flexible 2025 "01-15" = none ∧
      (1900 : Nat) ≠ 2025 := by
  decide

unseal Rat.add Rat.mul Rat.sub Rat.inv in
/-- C4, counterexample.  The hash input concatenates `%Y%m%d`, the amount and
the description with no separator, so the distinct triples
(2024-01-01, 1.5, "5X") and (2024-01-01, 1.55, "X") produce the identical
pre-digest string "202401011.55X"; any deterministic digest (SHA-256
included, here instantiated with `id`) therefore collides on them, refuting
the claimed "hash equal iff triple equal".  (`mkRat 3 2` is 1.5 and
`mkRat 31 20` is 1.55.) -/
theorem C4_counterexample :
    hashInput ⟨2024, 1, 1⟩ (mkRat 3 2) "5X" = hashInput ⟨2024, 1, 1⟩ (mkRat 31 20) "X" ∧
      generate_transaction_hash id ⟨2024, 1, 1⟩ (mkRat 3 2) "5X" =
        generate_transaction_hash id ⟨2024, 1, 1⟩ (mkRat 31 20) "X" ∧
      ¬(mkRat 3 2 = mkRat 31 20 ∧ ("5X" : String) = "X") := by
  refine ⟨by decide, by decide, ?_⟩
  intro h
  exact absurd h.1 (by decide)

unseal Rat.add Rat.mul Rat.sub Rat.inv in
/-- C4, amended: the content hash is a deterministic pure function of
(date, amount, description) only — equal triples yield equal hashes for every
digest function, whatever the institution (`bank`) and category fields are —
but hash equality does NOT imply triple equality: the unseparated
concatenation identifies distinct (amount, description) pairs. -/
theorem C4_amended :
    (∀ (sha : String → String) (t1 t2 : Txn),
      t1.date = t2.date → t1.amount = t2.amount → t1.description = t2.description →
        generate_transaction_hash sha t1.date t1.amount t1.description =
          generate_transaction_hash sha t2.date t2.amount t2.description) ∧
      hashInput ⟨2024, 1, 1⟩ (mkRat 3 2) "5X" = hashInput ⟨2024, 1, 1⟩ (mkRat 31 20) "X" ∧
      ((mkRat 3 2 : ℚ), ("5X" : String)) ≠ ((mkRat 31 20 : ℚ), ("X" : String)) := by
  refine ⟨?_, by decide, ?_⟩
  · intro sha t1 t2 hd ha hs
    rw [hd, ha, hs]
  · intro h
    exact absurd (congrArg Prod.fst h) (by decide)

unseal Rat.add Rat.mul Rat.sub Rat.inv in
/-- Witness for C4_amended: two transactions equal in the three identity
fields but with different bank and type hash identically. -/
theorem C4_witness :
    generate_transaction_hash id (Txn.date ⟨⟨2024, 1, 15⟩, "COFFEE", 5, "debit", "chase"⟩)
        (Txn.amount ⟨⟨2024, 1, 15⟩, "COFFEE", 5, "debit", "chase"⟩)
        (Txn.description ⟨⟨2024, 1, 15⟩, "COFFEE", 5, "debit", "chase"⟩) =
      generate_transaction_hash id (Txn.date ⟨⟨2024, 1, 15⟩, "COFFEE", 5, "credit", "hdfc"⟩)
        (Txn.amount ⟨⟨2024, 1, 15⟩, "COFFEE", 5, "credit", "hdfc"⟩)
        (Txn.description ⟨⟨2024, 1, 15⟩, "COFFEE", 5, "credit", "hdfc"⟩) :=
  C4_amended.1 id ⟨⟨2024, 1, 15⟩, "COFFEE", 5, "debit", "chase"⟩
    ⟨⟨2024, 1, 15⟩, "COFFEE", 5, "credit", "hdfc"⟩ rfl rfl rfl

/-- C7, counterexample.  The claim says that with an unknown institution and
no recognizable columns at all, extraction "returns an empty result (zero
transactions, file marked failed)".  The code instead RAISES
(`Exception("Could not identify required columns in CSV")`, re-raised by
`parse_csv`): the result is an error, not an empty transaction list, and the
caller records nothing at all for the file (no record with a failed
status). -/
theorem C7_counterexample :
    detect_bank_from_columns ["foo", "bar"] = "unknown" ∧
      parse_csv ⟨["foo", "bar"], []⟩ = .error "Could not identify required columns in CSV" ∧
      parse_csv ⟨["foo", "bar"], []⟩ ≠ .ok [] := by
  refine ⟨by decide, rfl, ?_⟩
  intro h
  rw [show parse_csv ⟨["foo", "bar"], []⟩ =
    .error "Could not identify required columns in CSV" from rfl] at h
  exact Except.noConfusion h

/-- C7, amended: for an unknown institution `parse_csv` dispatches to the
generic extractor; the generic extractor raises exactly when no date-like, no
description-like, or no amount-like column exists (every other failure is a
per-row skip — with the required columns present it always returns a
transaction list); and a parser error makes the upload flow report an error
for that file and leave the store unchanged, so no uploaded-file record (in
particular none marked failed) is created. -/
theorem C7_amended :
    (∀ df : DataFrame, detect_bank_from_columns df.columns = "unknown" →
      parse_csv df = parse_generic_csv df) ∧
    (∀ df : DataFrame,
      (genericDateCols df.columns = [] ∨ genericDescCols df.columns = [] ∨
        genericAmountCols df.columns = []) →
      parse_generic_csv df = .error "Could not identify required columns in CSV") ∧
    (∀ df : DataFrame, genericDateCols df.columns ≠ [] → genericDescCols df.columns ≠ [] →
      genericAmountCols df.columns ≠ [] → ∃ l, parse_generic_csv df = .ok l) ∧
    (∀ (sha : String → String) (parse : FileInput → Except String (List Txn)) (s : Store)
      (u : Nat) (f : FileInput) (e : String), parse f = .error e →
      is_file_processed sha s f.content = false →
      processFile sha parse s u f = (s, .errorMsg e)) := by
  refine ⟨?_, ?_, ?_, ?_⟩
  · intro df h
    unfold parse_csv
    rw [h]
    simp
  · intro df h
    unfold parse_generic_csv
    cases hd : genericDateCols df.columns <;> cases hx : genericDescCols df.columns <;>
      cases ha : genericAmountCols df.columns <;> simp_all
  · intro df h1 h2 h3
    cases hd : genericDateCols df.columns with
    | nil => exact absurd hd h1
    | cons dc drest =>
      cases hx : genericDescCols df.columns with
      | nil => exact absurd hx h2
      | cons xc xrest =>
        cases ha : genericAmountCols df.columns with
        | nil => exact absurd ha h3
        | cons ac arest =>
          unfold parse_generic_csv
          rw [hd, hx, ha]
          exact ⟨_, rfl⟩
  · intro sha parse s u f e hp hfp
    unfold processFile
    rw [hfp, hp]
    rfl

/-- Witness for C7_amended at concrete inputs: a header set with no
recognizable columns raises, one with recognizable columns does not, and an
erroring parse leaves the store unchanged. -/
theorem C7_witness :
    parse_csv ⟨["foo", "bar"], []⟩ = parse_generic_csv ⟨["foo", "bar"], []⟩ ∧
      parse_generic_csv ⟨["foo", "bar"], []⟩ =
        .error "Could not identify required columns in CSV" ∧
      (∃ l, parse_generic_csv ⟨["Date", "Description", "Amount"], []⟩ = .ok l) ∧
      processFile (fun _ => "h") (fun _ => .error "boom") ⟨[], [], []⟩ 0 ⟨"f.csv", "data"⟩ =
        (⟨[], [], []⟩, .errorMsg "boom") :=
  ⟨C7_amended.1 ⟨["foo", "bar"], []⟩ (by decide),
   C7_amended.2.1 ⟨["foo", "bar"], []⟩ (Or.inl (by decide)),
   C7_amended.2.2.1 ⟨["Date", "Description", "Amount"], []⟩ (by decide) (by decide) (by decide),
   C7_amended.2.2.2 (fun _ => "h") (fun _ => .error "boom") ⟨[], [], []⟩ 0 ⟨"f.csv", "data"⟩
     "boom" rfl (by decide)⟩

unseal Rat.add Rat.mul Rat.sub Rat.inv in
/-- C8, counterexample.  The claim says a row whose debit cell holds any
non-zero value and whose credit cell is zero yields one debit transaction
with amount equal to the debit value.  With debit "-50" (a non-zero value,
parsed as -50) and credit "0", the code falls through to the single-column
loop and stores the absolute value: the transaction amount is 50, not the
debit value -50. -/
theorem C8_counterexample :
    parseCell (some "-50") = some (-50) ∧ ((-50 : ℚ) = 0 → False) ∧
      parse_bank_specific_csv ⟨["Date", "Description", "Debit", "Credit"],
        [citiRow (some "01/15/2024") (some "X") (some "-50") (some "0")]⟩ "citibank" =
        [⟨⟨2024, 1, 15⟩, "X", 50, "debit", "citibank"⟩] ∧
      ((50 : ℚ) = -50 → False) := by
  refine ⟨by decide, by decide, by decide, by decide⟩

/-- C8, amended: for a citibank-layout row, a POSITIVE debit value with a
zero-or-empty credit cell yields exactly one debit transaction whose amount
is the debit value; a row where both cells are zero or empty yields no
transaction.  (A negative "non-zero" debit instead yields the absolute
value, see the counterexample.) -/
theorem C8_amended :
    (∀ (ds xs dstr : String) (ccell : Cell) (d : ℚ) (date : PyDate),
      parse_date (some ds) = some date →
      parseCell (some dstr) = some d → 0 < d →
      (parseCell ccell = none ∨ parseCell ccell = some 0) →
      parse_bank_specific_csv ⟨["Date", "Description", "Debit", "Credit"],
        [citiRow (some ds) (some xs) (some dstr) ccell]⟩ "citibank" =
        [⟨date, pyStrip xs, d, "debit", "citibank"⟩]) ∧
    (∀ (ds xs : String) (dcell ccell : Cell) (date : PyDate),
      parse_date (some ds) = some date →
      (parseCell dcell = none ∨ parseCell dcell = some 0) →
      (parseCell ccell = none ∨ parseCell ccell = some 0) →
      parse_bank_specific_csv ⟨["Date", "Description", "Debit", "Credit"],
        [citiRow (some ds) (some xs) dcell ccell]⟩ "citibank" = []) := by
  constructor
  · intro ds xs dstr ccell d date hdate hdeb hd hc
    have h1 : containsSub (toLowerStr "Debit") "debit" = true := by decide
    have h3 : containsSub (toLowerStr "Credit") "credit" = true := by decide
    have h4 : containsSub (toLowerStr "Credit") "debit" = false := by decide
    have hne : d ≠ 0 := ne_of_gt hd
    rcases hc with hc | hc <;>
      simp [parse_bank_specific_csv, processBankRow, citiRow, extract_amount_and_type, dcLoop,
        singleLoop, creditOrSingle, find_column, lookupCell, List.find?, List.filterMap,
        bank_column_mappings, bankRowDescription, cellStr, hdate, hdeb, hc, hne, hd, h1, h3, h4,
        qAbs, not_lt.mpr (le_of_lt hd)]
  · intro ds xs dcell ccell date hdate hdeb hc
    have h1 : containsSub (toLowerStr "Debit") "debit" = true := by decide
    have h3 : containsSub (toLowerStr "Credit") "credit" = true := by decide
    have h4 : containsSub (toLowerStr "Credit") "debit" = false := by decide
    rcases hdeb with hdeb | hdeb <;> rcases hc with hc | hc <;>
      simp [parse_bank_specific_csv, processBankRow, citiRow, extract_amount_and_type, dcLoop,
        singleLoop, creditOrSingle, find_column, lookupCell, List.find?, List.filterMap,
        bank_column_mappings, bankRowDescription, cellStr, hdate, hdeb, hc, h1, h3, h4, qAbs]

unseal Rat.add Rat.mul Rat.sub Rat.inv in
/-- Witness for C8_amended at a concrete row: debit "50", credit "0" gives
one debit transaction of amount 50; empty debit and credit "0" gives
nothing. -/
theorem C8_witness :
    parse_bank_specific_csv ⟨["Date", "Description", "Debit", "Credit"],
        [citiRow (some "01/15/2024") (some "X") (some "50") (some "0")]⟩ "citibank" =
        [⟨⟨2024, 1, 15⟩, "X", 50, "debit", "citibank"⟩] ∧
      parse_bank_specific_csv ⟨["Date", "Description", "Debit", "Credit"],
        [citiRow (some "01/15/2024") (some "X") (some "") (some "0")]⟩ "citibank" = [] :=
  ⟨C8_amended.1 "01/15/2024" "X" "50" (some "0") 50 ⟨2024, 1, 15⟩ (by decide) (by decide)
      (by decide) (Or.inr (by decide)),
   C8_amended.2 "01/15/2024" "X" (some "") (some "0") ⟨2024, 1, 15⟩ (by decide)
      (Or.inl (by decide)) (Or.inr (by decide))⟩

/-- C6: the categorizer walks the category table in insertion order and the
first keyword hit wins, so "UBER EATS ORDER" matches the Food & Dining
keyword "uber eats" before the Transportation keyword "uber". -/
theorem C6_uber_eats :
    categorize_transaction "UBER EATS ORDER" = "Food & Dining" ∧
      categorize_transaction "UBER EATS ORDER" ≠ "Transportation" := by
  decide
/-- C5: re-ingesting the exact same file bytes inserts zero new transactions,
and whenever the first ingestion actually processed and recorded the file
(the upload-flow case the claim describes), the second is rejected by the
file-hash check before any parsing and reported as an already-processed
duplicate. -/
theorem C5_second_ingest (sha : String → String) (parse : FileInput → Except String (List Txn))
    (s : Store) (u : Nat) (f : FileInput) :
    ((processFile sha parse (processFile sha parse s u f).1 u f).2).inserted = 0 ∧
      (∀ n d, (processFile sha parse s u f).2 = .processed n d →
        (processFile sha parse (processFile sha parse s u f).1 u f).2 = .alreadyProcessed) := by
  rcases processFile_cases sha parse s u f with ⟨n, d, hrep, hfp2⟩ | ⟨hst, hrep⟩
  · rw [processFile_of_processed sha parse _ u f hfp2]
    exact ⟨rfl, fun _ _ _ => rfl⟩
  · rw [hst]
    refine ⟨?_, ?_⟩
    · cases hr : (processFile sha parse s u f).2 with
      | processed n d => exact absurd hr (hrep n d)
      | alreadyProcessed => rfl
      | noTransactions => rfl
      | errorMsg e => rfl
    · intro n d h
      exact absurd h (hrep n d)

unseal Rat.add Rat.mul Rat.sub Rat.inv in
/-- Witness for C5_second_ingest: a concrete one-transaction file is
processed once, and the identical bytes are then rejected as a duplicate with
zero insertions. -/
theorem C5_witness :
    ((processFile (fun x => x) (fun _ => .ok [⟨⟨2024, 1, 15⟩, "A", 5, "credit", "chase"⟩])
        (processFile (fun x => x) (fun _ => .ok [⟨⟨2024, 1, 15⟩, "A", 5, "credit", "chase"⟩])
          ⟨[], [], []⟩ 0 ⟨"a.csv", "chase bank"⟩).1 0 ⟨"a.csv", "chase bank"⟩).2).inserted = 0 ∧
      (processFile (fun x => x) (fun _ => .ok [⟨⟨2024, 1, 15⟩, "A", 5, "credit", "chase"⟩])
        (processFile (fun x => x) (fun _ => .ok [⟨⟨2024, 1, 15⟩, "A", 5, "credit", "chase"⟩])
          ⟨[], [], []⟩ 0 ⟨"a.csv", "chase bank"⟩).1 0 ⟨"a.csv", "chase bank"⟩).2 =
        .alreadyProcessed :=
  ⟨(C5_second_ingest (fun x => x) (fun _ => .ok [⟨⟨2024, 1, 15⟩, "A", 5, "credit", "chase"⟩])
      ⟨[], [], []⟩ 0 ⟨"a.csv", "chase bank"⟩).1,
   (C5_second_ingest (fun x => x) (fun _ => .ok [⟨⟨2024, 1, 15⟩, "A", 5, "credit", "chase"⟩])
      ⟨[], [], []⟩ 0 ⟨"a.csv", "chase bank"⟩).2 1 0 (by decide)⟩

/-- C9: the file-level duplicate check is global, not per owner — it succeeds
exactly when ANY uploaded-file record (whoever uploaded it) carries the hash
of the bytes, so a file processed by one user is rejected for every other
user; and the upload flow keeps the recorded hashes pairwise distinct, as the
unique constraint on the hash column requires. -/
theorem C9_global_dedup :
    (∀ (sha : String → String) (s : Store) (b : String),
      is_file_processed sha s b = true ↔ ∃ r, r ∈ s.files ∧ r.fileHash = sha b) ∧
    (∀ (sha : String → String) (parse : FileInput → Except String (List Txn)) (s : Store)
      (u1 u2 : Nat) (f : FileInput) (n d : Nat),
      (processFile sha parse s u1 f).2 = .processed n d →
      (processFile sha parse (processFile sha parse s u1 f).1 u2 f).2 = .alreadyProcessed) ∧
    (∀ (sha : String → String) (parse : FileInput → Except String (List Txn)) (s : Store)
      (u : Nat) (f : FileInput),
      (s.files.map FileRec.fileHash).Nodup →
      (((processFile sha parse s u f).1).files.map FileRec.fileHash).Nodup) := by
  refine ⟨?_, ?_, ?_⟩
  · intro sha s b
    simp [is_file_processed, List.any_eq_true]
  · intro sha parse s u1 u2 f n d h
    rcases processFile_cases sha parse s u1 f with ⟨n', d', hrep, hfp2⟩ | ⟨hst, hrep⟩
    · rw [processFile_of_processed sha parse _ u2 f hfp2]
    · exact absurd h (hrep n d)
  · intro sha parse s u f hnd
    unfold processFile
    split
    · exact hnd
    · next hfp =>
      split
      · exact hnd
      · split
        · exact hnd
        · dsimp only
          simp only [record_file_upload, save_transactions_files, create_or_get_account_files,
            List.map_append]
          rw [List.nodup_append]
          refine ⟨hnd, List.nodup_singleton _, ?_⟩
          intro x hx hx2
          simp only [List.map_cons, List.map_nil, List.mem_singleton] at hx2
          obtain ⟨r, hr, rfl⟩ := List.mem_map.mp hx
          simp [is_file_processed, List.any_eq_true] at hfp
          exact hfp r hr hx2

unseal Rat.add Rat.mul Rat.sub Rat.inv in
/-- Witness for C9_global_dedup: a file processed by user 0 is rejected when
user 1 uploads the same bytes, and the hash column stays duplicate-free. -/
theorem C9_witness :
    (processFile (fun x => x) (fun _ => .ok [⟨⟨2024, 1, 15⟩, "A", 5, "credit", "chase"⟩])
        (processFile (fun x => x) (fun _ => .ok [⟨⟨2024, 1, 15⟩, "A", 5, "credit", "chase"⟩])
          ⟨[], [], []⟩ 0 ⟨"a.csv", "chase bank"⟩).1 1 ⟨"a.csv", "chase bank"⟩).2 =
      .alreadyProcessed ∧
      (((processFile (fun x => x) (fun _ => .ok [⟨⟨2024, 1, 15⟩, "A", 5, "credit", "chase"⟩])
        ⟨[], [], []⟩ 0 ⟨"a.csv", "chase bank"⟩).1).files.map FileRec.fileHash).Nodup :=
  ⟨C9_global_dedup.2.1 (fun x => x)
      (fun _ => .ok [⟨⟨2024, 1, 15⟩, "A", 5, "credit", "chase"⟩]) ⟨[], [], []⟩ 0 1
      ⟨"a.csv", "chase bank"⟩ 1 0 (by decide),
   C9_global_dedup.2.2 (fun x => x)
      (fun _ => .ok [⟨⟨2024, 1, 15⟩, "A", 5, "credit", "chase"⟩]) ⟨[], [], []⟩ 0
      ⟨"a.csv", "chase bank"⟩ (by decide)⟩

/-- C10: when parsing yields zero transactions and the hash is not already
recorded, the upload flow leaves the store completely unchanged — no
uploaded-file record, no persisted hash — and re-uploading the identical
bytes runs detection and extraction again (same no-transactions outcome)
instead of being rejected as a duplicate. -/
theorem C10_empty_parse_no_record (sha : String → String)
    (parse : FileInput → Except String (List Txn)) (s : Store) (u : Nat) (f : FileInput)
    (hfp : is_file_processed sha s f.content = false) (hp : parse f = .ok []) :
    processFile sha parse s u f = (s, .noTransactions) ∧
      processFile sha parse (processFile sha parse s u f).1 u f = (s, .noTransactions) ∧
      (processFile sha parse (processFile sha parse s u f).1 u f).2 ≠ .alreadyProcessed := by
  have e1 : processFile sha parse s u f = (s, .noTransactions) := by
    unfold processFile
    rw [hfp, hp]
    rfl
  have e2 : processFile sha parse (processFile sha parse s u f).1 u f = (s, .noTransactions) := by
    rw [e1]
    exact e1
  refine ⟨e1, e2, ?_⟩
  rw [e2]
  intro h
  exact Report.noConfusion h

/-- Witness for C10_empty_parse_no_record: a file that parses to zero
transactions leaves the empty store empty and is re-parsed (not rejected) on
re-upload. -/
theorem C10_witness :
    processFile (fun x => x) (fun _ => .ok []) ⟨[], [], []⟩ 0 ⟨"a.csv", "junk"⟩ =
      (⟨[], [], []⟩, .noTransactions) ∧
      (processFile (fun x => x) (fun _ => .ok [])
        (processFile (fun x => x) (fun _ => .ok []) ⟨[], [], []⟩ 0 ⟨"a.csv", "junk"⟩).1 0
        ⟨"a.csv", "junk"⟩).2 ≠ .alreadyProcessed :=
  ⟨(C10_empty_parse_no_record (fun x => x) (fun _ => .ok []) ⟨[], [], []⟩ 0 ⟨"a.csv", "junk"⟩
      (by decide) rfl).1,
   (C10_empty_parse_no_record (fun x => x) (fun _ => .ok []) ⟨[], [], []⟩ 0 ⟨"a.csv", "junk"⟩
      (by decide) rfl).2.2⟩

end FinanceDash
